import Mathlib

/-!
Verification development for the Concurrent-Cpp repository
(`thread_synchronization_example.cpp`, `thread_synchronization_demo.cpp`,
`concurrent_programming_examples.cpp`).

The C++ sources are didactic snippets built on standard-library threading
primitives.  We give a shallow embedding of the functions and patterns the
spec talks about:

* machine `int` arithmetic is `Int` wrapped to 32 bits where overflow can
  occur (`toI32`), matching two's-complement wraparound;
* RAII constructs (`std::lock_guard`, the `ThreadGuard` destructor) are
  embedded through their C++ semantics: an explicit event trace for lock
  acquisition/release, and a state machine for thread handles;
* C++ exceptions are `Except` / `Option String` error values;
* thread interleavings are explicit schedules (`List Bool`) driving a step
  function on the shared state.
-/

/-! ### `factorial` from `thread_synchronization_demo.cpp` (lines 51-57)

```cpp
int factorial(int n) {
    int result = 1;
    for (int i = n; i > 1; --i) {
        result *= i;
    }
    return result;
}
```

`result *= i` is a 32-bit `int` multiplication; we model it as wrapping
modulo 2^32 (two's complement).  The loop runs while `i > 1`, i.e. exactly
`(n - 1).toNat` times, counting `i` down from `n`. -/

/-- Wrap an integer to the 32-bit two's-complement range
`[-2^31, 2^31 - 1]`, the behaviour of a 32-bit `int` multiplication. -/
def toI32 (z : Int) : Int := (z + 2 ^ 31) % 2 ^ 32 - 2 ^ 31

/-- The loop `for (int i = n; i > 1; --i) result *= i;` with an explicit
iteration count: `facGo k i acc` runs `k` further iterations, with loop
variable `i` and accumulator `acc = result`. -/
def facGo : Nat → Int → Int → Int
  | 0, _, acc => acc
  | k + 1, i, acc => facGo k (i - 1) (toI32 (acc * i))

/-- `factorial` from `thread_synchronization_demo.cpp`: the guard `i > 1`
starting from `i = n` makes the loop body run `(n - 1).toNat` times. -/
def factorial (n : Int) : Int := facGo (n - 1).toNat n 1

/-! ### The worker loops (claim C9)

`FileWriter::operator()` in `concurrent_programming_examples.cpp` (44-51):

```cpp
for (int i = 0; i > -100; --i) { fileStream << "From thread: " << i << endl; }
```

`Task::operator()` (26-31) and `LoggerTask::operator()` (91-97) in
`thread_synchronization_example.cpp`:

```cpp
for (int i = -1; i >= -100; --i) { ... }
```

Each loop writes one line per iteration with the current value of `i`.
A down-counting loop `for (int i = start; i > stop; --i)` visits exactly
`(start - stop).toNat` values `start, start - 1, ...`; `loopGo` makes that
iteration count explicit (`i >= -100` is the guard `i > -101`). -/

/-- `loopGo k i` is the list of loop-variable values of a down-counting
loop that still has `k` iterations to run, starting at `i`. -/
def loopGo : Nat → Int → List Int
  | 0, _ => []
  | k + 1, i => i :: loopGo k (i - 1)

/-- Values taken by `i` in `for (int i = start; i > stop; --i)`: the loop
runs while `i > stop`, i.e. `(start - stop).toNat` times. -/
def loopValues (start stop : Int) : List Int :=
  loopGo (start - stop).toNat start

/-- The values `FileWriter::operator()` writes:
`for (int i = 0; i > -100; --i)`. -/
def fileWriterValues : List Int := loopValues 0 (-100)

/-- The values `Task::operator()` / `LoggerTask::operator()` pass to
`print_shared_data` / `Logger::log`: `for (int i = -1; i >= -100; --i)`,
whose guard is `i > -101`. -/
def taskValues : List Int := loopValues (-1) (-101)

/-! ### The text lines the program writes (claims C7, C9, C10)

Each write in the sources is a single `<<`-chain ending in `endl`, so each
produces one line of text.  We embed each line-producing expression as a
Lean `String`.  `toString (v : Int)` is exactly the decimal rendering of a
C++ `int` (optional `-` sign followed by digits). -/

/-- The line `print_shared_data` writes
(`thread_synchronization_example.cpp` 19):
`std::cout << "From " << thread_id << ": " << value << std::endl`. -/
def printSharedLine (thread_id : String) (value : Int) : String :=
  "From " ++ thread_id ++ ": " ++ toString value

/-- The line `Logger::log` writes (`thread_synchronization_example.cpp`
71), the same expression shape as `print_shared_data`; also the line
written by `SafeLogger::log_data`, `DeferredLogger::log_data` and
`OnceLogger::log_data`. -/
def loggerLogLine (thread_id : String) (value : Int) : String :=
  "From " ++ thread_id ++ ": " ++ toString value

/-- The line `FileWriter::operator()` writes
(`concurrent_programming_examples.cpp` 48):
`fileStream << "From thread: " << i << endl`. -/
def fileWriterLine (i : Int) : String := "From thread: " ++ toString i

/-- The line the `main` loops of `concurrent_programming_examples.cpp`
write (65, 95, 153): `logFile << "From main: " << i << endl`. -/
def mainWriterLine (i : Int) : String := "From main: " ++ toString i

/-- The line `consumer` writes (`thread_synchronization_demo.cpp` 47):
`std::cout << "Consumer received data: " << data << std::endl`. -/
def consumerLine (data : Int) : String :=
  "Consumer received data: " ++ toString data

/-- The line `printMessage` writes to `cout`
(`concurrent_programming_examples.cpp` 13): `"Hello, World!"`. -/
def printMessageLine : String := "Hello, World!"

/-- A line of the shape `"<source-label>: <integer>"`: some label,
followed by a colon and a space, followed by the decimal rendering of a
single integer. -/
def IsLogShaped (s : String) : Prop :=
  ∃ label : String, ∃ n : Int, s = label ++ ": " ++ toString n

/-! ### The `Logger` class (claim C1)

`thread_synchronization_example.cpp` 54-79.  `Logger` bundles `log_file`
with `file_mutex`.  We record each member function as the trace of
lock/stream operations its body performs, in source order:

```cpp
void log(const std::string& thread_id, int value) {
    std::lock_guard<std::mutex> lock(file_mutex);     // acquire ... release
    log_file << "From " << thread_id << ": " << value << std::endl;
}
void process_file(void (*func)(std::ofstream&)) {
    func(log_file);                                   // no lock at all
}
```
-/

/-- One operation of a `Logger` member-function body. -/
inductive LoggerOp
  /-- `std::lock_guard` constructor: acquire `file_mutex`. -/
  | acquire
  /-- `std::lock_guard` destructor at scope exit: release `file_mutex`. -/
  | release
  /-- a write to the protected `log_file` stream by the member itself -/
  | streamUse
  /-- handing `log_file` by reference to a caller-supplied function -/
  | callbackStream
deriving DecidableEq

/-- Body of `Logger::log` (lines 67-72): lock_guard, write, implicit
release at scope exit. -/
def loggerLogTrace : List LoggerOp :=
  [LoggerOp.acquire, LoggerOp.streamUse, LoggerOp.release]

/-- Body of `Logger::process_file` (lines 75-78): `func(log_file)` with no
lock operation at all. -/
def loggerProcessFileTrace : List LoggerOp := [LoggerOp.callbackStream]

/-- The member functions of `Logger` (besides the constructor, which runs
before any sharing). -/
def loggerMemberTraces : List (List LoggerOp) :=
  [loggerLogTrace, loggerProcessFileTrace]

/-- `guardsStreamFrom h tr`: scanning trace `tr` with the mutex currently
held iff `h`, every use of the stream — the member's own writes and every
hand-off to a caller-supplied function — happens while the mutex is
held. -/
def guardsStreamFrom : Bool → List LoggerOp → Bool
  | _, [] => true
  | _, LoggerOp.acquire :: r => guardsStreamFrom true r
  | _, LoggerOp.release :: r => guardsStreamFrom false r
  | h, LoggerOp.streamUse :: r => h && guardsStreamFrom h r
  | h, LoggerOp.callbackStream :: r => h && guardsStreamFrom h r

/-- A member function exposes/uses the protected stream only inside a
critical section: its trace, started with the mutex free, keeps every
stream access under the lock. -/
def guardsStream (tr : List LoggerOp) : Bool := guardsStreamFrom false tr

/-! ### `lock_guard`-protected accessors (claim C2)

We embed the C++ semantics of the RAII lock constructs used by
`print_shared_data` (`thread_synchronization_example.cpp` 15-20) and
`SafeLogger::log_data` (136-144) as explicit event traces.  The body of
the critical section (`fn` in the spec's `withLock(fn)`) is a parameter
`body : Except String Unit` giving its outcome — `.ok` for a normal
return, `.error` for a raised exception. -/

/-- One lock event: acquisition or release of mutex `m`, or one action of
the protected body. -/
inductive MEv
  | acq (m : Nat)
  | rel (m : Nat)
  | act
deriving DecidableEq

/-- C++ semantics of `{ std::lock_guard<std::mutex> lock(m); <body> }`
(as in `print_shared_data`, `Logger::log`): the guard's constructor
acquires `m` before the body runs; its destructor releases `m` when the
scope exits, on the normal path and on the exception-unwinding path alike,
so the trace is the same for both outcomes and the body's outcome is
passed through unchanged. -/
def lockGuardRun (m : Nat) (body : Except String Unit) :
    Except String Unit × List MEv :=
  (body, [MEv.acq m, MEv.act, MEv.rel m])

/-- C++ semantics of `std::lock(m1, m2)` followed by two
`std::lock_guard(..., std::adopt_lock)` guards (`SafeLogger::log_data`):
both mutexes are acquired all-or-nothing before the body, and both
adopting guards release at scope exit on every path. -/
def lockBothRun (m1 m2 : Nat) (body : Except String Unit) :
    Except String Unit × List MEv :=
  (body, [MEv.acq m1, MEv.acq m2, MEv.act, MEv.rel m2, MEv.rel m1])

/-- `print_shared_data` (`thread_synchronization_example.cpp` 15-20):
a `lock_guard` on `global_mutex` (mutex id 0) around the body that writes
`printSharedLine`; `body` is the outcome of that protected body. -/
def print_shared_data (body : Except String Unit) :
    Except String Unit × List MEv :=
  lockGuardRun 0 body

/-- `SafeLogger::log_data` (`thread_synchronization_example.cpp`
136-144): `std::lock(mutex1, mutex2)` (mutex ids 1, 2) plus two adopting
guards around the body that writes `loggerLogLine`. -/
def safeLoggerLogData (body : Except String Unit) :
    Except String Unit × List MEv :=
  lockBothRun 1 2 body

/-- The multiset of mutexes still held after running a trace, starting
from held-set `h` (as a list). -/
def heldAfter : List Nat → List MEv → List Nat
  | h, [] => h
  | h, MEv.acq m :: r => heldAfter (m :: h) r
  | h, MEv.rel m :: r => heldAfter (h.erase m) r
  | h, MEv.act :: r => heldAfter h r

/-- `actsUnder m h tr`: every `act` of the trace `tr` happens while mutex
`m` is in the held-set, starting from held-set `h`. -/
def actsUnder (m : Nat) : List Nat → List MEv → Prop
  | _, [] => True
  | h, MEv.acq k :: r => actsUnder m (k :: h) r
  | h, MEv.rel k :: r => actsUnder m (h.erase k) r
  | h, MEv.act :: r => m ∈ h ∧ actsUnder m h r

/-! ### `ThreadGuard` (claim C3)

`concurrent_programming_examples.cpp` has two variants with the same
destructor body — the reference-holding one (122-135) and the
move-owning one (279-292):

```cpp
~ThreadGuard() {
    if (t.joinable()) {
        t.join();
    }
}
```

We model the wrapped `std::thread` handle as a state machine.  C++
destructors run on every scope exit — normal return, early return, and
exception unwinding — so the destructor function below is the effect of
`ThreadGuard` destruction on every code path. -/

/-- State of a `std::thread` handle. -/
inductive ThreadHandle
  /-- owns a joinable thread whose body is still executing -/
  | running
  /-- owns a joinable thread whose body has already completed -/
  | finished
  /-- `join()` has been called: completed and no longer joinable -/
  | joined
  /-- `detach()` has been called: no longer owned -/
  | detached
  /-- default-constructed or moved-from: owns nothing -/
  | empty
deriving DecidableEq

/-- `t.joinable()`: true iff the handle owns a thread not yet joined or
detached. -/
def joinable : ThreadHandle → Bool
  | ThreadHandle.running => true
  | ThreadHandle.finished => true
  | _ => false

/-- `t.join()` on a joinable handle: blocks the caller until the owned
thread's body has completed, then marks the handle joined.  (On a
non-joinable handle C++ `join` throws; `~ThreadGuard` never calls it in
that state.) -/
def joinThread : ThreadHandle → ThreadHandle
  | ThreadHandle.running => ThreadHandle.joined
  | ThreadHandle.finished => ThreadHandle.joined
  | s => s

/-- `~ThreadGuard()`: `if (t.joinable()) { t.join(); }`. -/
def threadGuardDtor (t : ThreadHandle) : ThreadHandle :=
  if joinable t then joinThread t else t

/-- A handle that still owns a thread whose body is executing. -/
def ownedRunning : ThreadHandle → Bool
  | ThreadHandle.running => true
  | _ => false

/-! ### `std::promise` as a single-set cell (claim C4)

`thread_synchronization_demo.cpp` calls `promise.set_value(6)` (line 84)
and `sharedPromise.set_value(7)` (line 106).  The shared state of a
`std::promise<int>` holds `none` before `set_value` and `some v` after;
C++ specifies that a second `set_value` throws
`std::future_error(promise_already_satisfied)` and leaves the stored
value untouched. -/

/-- `promise.set_value(v)` on shared state `p`: returns the new shared
state and the raised error, if any. -/
def setValue (p : Option Int) (v : Int) : Option Int × Option String :=
  match p with
  | none => (some v, none)
  | some w => (some w, some "promise already satisfied")

/-- Run a whole sequence of `set_value` calls, keeping the state each
failed call leaves behind. -/
def setAll (p : Option Int) (vs : List Int) : Option Int :=
  vs.foldl (fun st w => (setValue st w).1) p

/-! ### The producer/consumer queue (claims C5 and C6)

`thread_synchronization_demo.cpp` 11-49.  The producer pushes
`count = 10, 9, ..., 1` with `dataQueue.push_front(count)`, each push
under `dataMutex`; the consumer, under the same mutex, waits on
`dataCondVar.wait(lock, [] { return !dataQueue.empty(); })`, then pops
`dataQueue.back()` / `pop_back()` and loops `while (data != 1)`.

Every queue access is inside the mutex, so the atomic steps of an
interleaving are exactly one producer-loop body or one consumer-loop
body; a schedule `List Bool` picks whose turn it is (`true` = producer).
We store `dataQueue` in back-to-front order: the head of the Lean list is
the deque's back, where the consumer pops, and `push_front` appends at
the end of the list. -/

/-- Shared state of the producer/consumer example: `queue` is `dataQueue`
(head = deque back), `toPush` the values the producer has yet to push,
`consumed` what the consumer has popped so far, `consumerDone` whether
the consumer's `while (data != 1)` loop has exited. -/
structure PCState where
  queue : List Int
  toPush : List Int
  consumed : List Int
  consumerDone : Bool
deriving DecidableEq

/-- The values the producer pushes: `count` from 10 down to 1 (the
sentinel). -/
def pcFull : List Int := [10, 9, 8, 7, 6, 5, 4, 3, 2, 1]

/-- Initial shared state: empty queue, nothing produced or consumed. -/
def pcInit : PCState := ⟨[], pcFull, [], false⟩

/-- One iteration of the producer's loop body: under the mutex, push the
next `count` at the front of the deque.  With the deque stored
back-to-front, `push_front` appends at the end of the list.  When the
producer has finished its 10 pushes it makes no further change. -/
def producerStep (s : PCState) : PCState :=
  match s.toPush with
  | [] => s
  | v :: rest => { s with queue := s.queue ++ [v], toPush := rest }

/-- One iteration of the consumer's loop body: the predicate-gated wait
blocks (no state change) while `dataQueue` is empty; otherwise the
consumer pops the back (`data = dataQueue.back(); dataQueue.pop_back()`),
prints it, and its loop exits once `data == 1`.  After its loop has
exited it makes no further change. -/
def consumerStep (s : PCState) : PCState :=
  if s.consumerDone then s
  else
    match s.queue with
    | [] => s
    | d :: rest =>
        { queue := rest
          toPush := s.toPush
          consumed := s.consumed ++ [d]
          consumerDone := d == 1 }

/-- One interleaving step: `true` runs the producer, `false` the
consumer. -/
def pcStep (s : PCState) (producerTurn : Bool) : PCState :=
  if producerTurn then producerStep s else consumerStep s

/-- Run a whole schedule from the initial state. -/
def pcRun (sched : List Bool) : PCState := pcInit |> sched.foldl pcStep

/-- Invariant of the producer/consumer state: what was consumed, what
sits in the deque (back to front), and what is still to be pushed,
concatenated, are exactly the produced sequence; the consumer's loop has
exited iff it has just popped the sentinel, and until then it has never
seen the sentinel. -/
def PCInv (s : PCState) : Prop :=
  s.consumed ++ s.queue ++ s.toPush = pcFull
  ∧ (s.consumerDone = true → s.consumed.getLast? = some 1)
  ∧ (s.consumerDone = false → s.consumed.count 1 = 0)

/-- A concrete fair schedule: producer and consumer alternate until both
are done. -/
def pcSched : List Bool :=
  [true, false, true, false, true, false, true, false, true, false,
   true, false, true, false, true, false, true, false, true, false]

/-! ### Condition-variable waits (claim C6)

The program contains exactly two condition-variable waits
(`thread_synchronization_demo.cpp`):

* line 42, in `consumer`:
  `dataCondVar.wait(lock, [] { return !dataQueue.empty(); })` — gated by
  the predicate "queue not empty", re-checked after every wakeup;
* line 138, in `main`:
  `timeCondVar.wait_for(timeLock, std::chrono::milliseconds(200))` — a
  bare timed wait with no predicate argument at all.
-/

/-- A condition-variable wait site of the program: where it is, and
whether the call passes a predicate to be re-checked after each
wakeup. -/
structure CVWaitSite where
  site : String
  predicateGated : Bool
deriving DecidableEq

/-- The two condition-variable waits in the sources, in order of
appearance. -/
def programWaits : List CVWaitSite :=
  [⟨"dataCondVar.wait in consumer, line 42", true⟩,
   ⟨"timeCondVar.wait_for in main, line 138", false⟩]

/-! ### Example 3: handling exceptions (claim C10)

`concurrent_programming_examples.cpp` 82-117.  The try block runs
`for (int i = 0; i < 100; ++i)`: it writes `"From main: " << i`, then at
`i == 50` throws `std::runtime_error("Simulated exception")`.  The catch
block joins `t1` and rethrows; the normal path joins `t1` and returns.
The loop variable stays in `0..99`, so we index iterations by `Nat`. -/

/-- One iteration of the try-block loop at index `i`: once an exception
is propagating, the remaining iterations do not run; otherwise write the
line, then throw at `i == 50`. -/
def ex3Step (st : List String × Option String) (i : Nat) :
    List String × Option String :=
  match st with
  | (ls, some e) => (ls, some e)
  | (ls, none) =>
      if i == 50 then
        (ls ++ [mainWriterLine (i : Int)], some "Simulated exception")
      else
        (ls ++ [mainWriterLine (i : Int)], none)

/-- The whole try block: the lines written to `logFile` and the escaping
exception, if any. -/
def ex3Try : List String × Option String :=
  (List.range 100).foldl ex3Step ([], none)

/-- Example 3's `main` after the try block: on the exception path the
catch block runs `t1.join()` and rethrows; on the normal path `main`
joins and returns.  Result: whether `t1` was joined before `main` ended,
and the exception `main` propagates, if any. -/
def ex3Main : Bool × Option String :=
  match ex3Try with
  | (_, some e) => (true, some e)
  | (_, none) => (true, none)

/-! ## Invariant preservation for the producer/consumer model -/

/-- One interleaving step preserves the producer/consumer invariant. -/
theorem pcInv_step (s : PCState) (c : Bool) (h : PCInv s) :
    PCInv (pcStep s c) := by
  obtain ⟨hsum, hdone, hcount⟩ := h
  cases c
  · -- consumer step
    show PCInv (consumerStep s)
    unfold consumerStep
    by_cases hd : s.consumerDone = true
    · rw [if_pos hd]; exact ⟨hsum, hdone, hcount⟩
    · rw [if_neg hd]
      rcases hq : s.queue with _ | ⟨d, rest⟩
      · exact ⟨hsum, hdone, hcount⟩
      · rw [hq] at hsum
        have hdf : s.consumerDone = false := by
          simpa using hd
        have hc0 : s.consumed.count 1 = 0 := hcount hdf
        refine ⟨?_, ?_, ?_⟩
        · simpa [List.append_assoc] using hsum
        · intro hd1
          have : d = 1 := by simpa using hd1
          subst this
          simp [List.getLast?_concat]
        · intro hd0
          have hne : d ≠ 1 := by simpa using hd0
          simp [List.count_append, hc0, List.count_cons, List.count_nil,
            beq_iff_eq, Ne.symm hne]
  · -- producer step
    show PCInv (producerStep s)
    unfold producerStep
    rcases htp : s.toPush with _ | ⟨v, rest⟩
    · exact ⟨hsum, hdone, hcount⟩
    · rw [htp] at hsum
      refine ⟨?_, hdone, hcount⟩
      simpa [List.append_assoc] using hsum

/-- The invariant holds after any schedule run from an invariant state. -/
theorem pcInv_foldl (sched : List Bool) :
    ∀ s : PCState, PCInv s → PCInv (sched.foldl pcStep s) := by
  induction sched with
  | nil => intro s h; exact h
  | cons c r ih => intro s h; exact ih (pcStep s c) (pcInv_step s c h)

/-- The invariant holds in the initial state. -/
theorem pcInv_init : PCInv pcInit :=
  ⟨rfl, fun h => absurd h (by decide), fun _ => rfl⟩

/-- The invariant holds after any schedule. -/
theorem pcInv_run (sched : List Bool) : PCInv (pcRun sched) :=
  pcInv_foldl sched pcInit pcInv_init

/-- Any invariant state in which the producer has pushed everything and
the consumer's loop has exited has consumed exactly the full produced
sequence. -/
theorem pc_final (s : PCState) (hI : PCInv s) (hp : s.toPush = [])
    (hd : s.consumerDone = true) : s.consumed = pcFull := by
  obtain ⟨hsum, hlast, -⟩ := hI
  rw [hp, List.append_nil] at hsum
  have h1 : s.consumed.getLast? = some 1 := hlast hd
  rcases hq : s.queue with _ | ⟨d, rest⟩
  · rw [hq, List.append_nil] at hsum
    exact hsum
  · exfalso
    rw [hq] at hsum
    have hlq : (d :: rest).getLast? = some 1 := by
      rw [← List.getLast?_append_of_ne_nil s.consumed (List.cons_ne_nil d rest),
        hsum]
      decide
    have hm1 : (1 : Int) ∈ s.consumed := List.mem_of_mem_getLast? h1
    have hm2 : (1 : Int) ∈ d :: rest := List.mem_of_mem_getLast? hlq
    have hc := congrArg (List.count 1) hsum
    rw [List.count_append] at hc
    have hfull : List.count (1 : Int) pcFull = 1 := by decide
    have p1 : 0 < List.count (1 : Int) s.consumed := List.count_pos_iff.mpr hm1
    have p2 : 0 < List.count (1 : Int) (d :: rest) := List.count_pos_iff.mpr hm2
    omega

/-! ## Claim theorems -/

/-- C1 (counterexample): the claim "no member function exposes a direct
reference to the protected value to a caller outside a critical section"
is false for `Logger`: `Logger::process_file` hands the `log_file` stream
to a caller-supplied function with `file_mutex` not held. -/
theorem C1_logger_counterexample :
    ¬ ∀ tr ∈ loggerMemberTraces, guardsStream tr = true := by
  decide

/-- C1 (amended): `Logger::log` touches the protected log-file stream
only while `file_mutex` is held, but `Logger::process_file` exposes the
stream to a caller-supplied function outside any critical section. -/
theorem C1_logger_guard_amended :
    guardsStream loggerLogTrace = true
    ∧ guardsStream loggerProcessFileTrace = false := by
  decide

/-- C2: for every outcome of the protected body (normal result or raised
failure), `print_shared_data` and `SafeLogger::log_data` acquire their
mutexes before the body's action runs, end with no mutex held — on the
failure path as on the normal path — and pass the body's outcome through
unchanged. -/
theorem C2_withLock_contract (body : Except String Unit) :
    (print_shared_data body).1 = body
    ∧ heldAfter [] (print_shared_data body).2 = []
    ∧ actsUnder 0 [] (print_shared_data body).2
    ∧ (safeLoggerLogData body).1 = body
    ∧ heldAfter [] (safeLoggerLogData body).2 = []
    ∧ actsUnder 1 [] (safeLoggerLogData body).2
    ∧ actsUnder 2 [] (safeLoggerLogData body).2 := by
  refine ⟨rfl, ?_, ?_, rfl, ?_, ?_, ?_⟩ <;>
    simp [print_shared_data, safeLoggerLogData, lockGuardRun, lockBothRun,
      heldAfter, actsUnder]

/-- C3: the `ThreadGuard` destructor never leaves its owned thread
running: if the handle is joinable it joins (the owned thread has
completed by the time the destructor returns), and if it is not joinable
the destructor does nothing. -/
theorem C3_thread_guard_dtor (t : ThreadHandle) :
    ownedRunning (threadGuardDtor t) = false
    ∧ threadGuardDtor t = cond (joinable t) ThreadHandle.joined t := by
  cases t <;> exact ⟨rfl, rfl⟩

/-- C4: `set_value` on a fresh promise stores the value and raises
nothing; a second `set_value` on the same cell fails with the
already-satisfied condition; and no later sequence of `set_value` calls
ever overwrites the stored value. -/
theorem C4_promise_single_set (v w : Int) (vs : List Int) :
    setValue none v = (some v, none)
    ∧ setValue (some v) w = (some v, some "promise already satisfied")
    ∧ setAll (some v) vs = some v := by
  refine ⟨rfl, rfl, ?_⟩
  induction vs with
  | nil => rfl
  | cons a r ih => simpa [setAll, setValue] using ih

/-- C5: for every thread schedule after which the producer has pushed all
ten values and the consumer's loop has exited, the consumer has consumed
exactly the ten values 10,9,...,1 — no duplication, no loss — in order,
the last one being the sentinel 1. -/
theorem C5_producer_consumer (sched : List Bool)
    (hp : (pcRun sched).toPush = [])
    (hd : (pcRun sched).consumerDone = true) :
    (pcRun sched).consumed = pcFull
    ∧ (pcRun sched).consumed.length = 10
    ∧ (pcRun sched).consumed.getLast? = some 1
    ∧ (pcRun sched).consumed.Nodup := by
  have h := pc_final _ (pcInv_run sched) hp hd
  refine ⟨h, ?_, ?_, ?_⟩ <;> rw [h] <;> decide

/-- C5 (witness): the alternating schedule completes both loops and the
consumer has consumed exactly 10,9,...,1. -/
theorem C5_producer_consumer_witness :
    (pcRun pcSched).consumed = pcFull
    ∧ (pcRun pcSched).consumed.length = 10
    ∧ (pcRun pcSched).consumed.getLast? = some 1
    ∧ (pcRun pcSched).consumed.Nodup :=
  C5_producer_consumer pcSched (by decide) (by decide)

/-- C6 (counterexample): the claim "no bare, predicate-free wait exists"
is false: the timed wait `timeCondVar.wait_for(timeLock, 200ms)` in
`main` passes no predicate. -/
theorem C6_cv_wait_counterexample :
    ¬ ∀ w ∈ programWaits, w.predicateGated = true := by
  decide

/-- C6 (amended): the consumer's condition-variable wait is gated by an
explicit predicate — the consumer makes no progress while the queue is
empty — but the program also contains one bare predicate-free timed wait
(`timeCondVar.wait_for` in `main`), so not every wait is
predicate-gated. -/
theorem C6_cv_wait_amended :
    programWaits.map CVWaitSite.predicateGated = [true, false]
    ∧ ∀ s : PCState, s.queue = [] → consumerStep s = s := by
  refine ⟨by decide, ?_⟩
  intro s hq
  unfold consumerStep
  rw [hq]
  by_cases hd : s.consumerDone = true <;> simp [hd]

/-- C6 (witness): on a concrete state with an empty queue the consumer
step is a no-op. -/
theorem C6_cv_wait_witness :
    consumerStep ⟨[], [], [10], false⟩ = ⟨[], [], [10], false⟩ :=
  C6_cv_wait_amended.2 ⟨[], [], [10], false⟩ rfl

/-- C7 (counterexample): the claim that every line the program writes to
a file or console stream has the shape `"<source-label>: <integer>"` is
false: `printMessage` writes the line `"Hello, World!"` to `cout`, which
has no colon at all. -/
theorem C7_log_shape_counterexample : ¬ IsLogShaped printMessageLine := by
  rintro ⟨label, n, hshape⟩
  have h2 : (':') ∈ (": " : String).data := by decide
  have hmem : (':') ∈ printMessageLine.data := by
    rw [hshape]
    simp only [String.data_append, List.mem_append]
    tauto
  exact absurd hmem (by decide)

/-- C7 (amended): every line written by the synchronized logging
functions and the worker loops — `print_shared_data`, `Logger::log` (and
the other `log_data` members), `FileWriter::operator()`, the `main`
file-writing loops, and the consumer's report — has the shape
`"<source-label>: <integer>"`; the message-demo console lines (such as
`printMessage`'s `"Hello, World!"`) are not of that shape. -/
theorem C7_log_shape_amended :
    (∀ tid v, IsLogShaped (printSharedLine tid v))
    ∧ (∀ tid v, IsLogShaped (loggerLogLine tid v))
    ∧ (∀ i, IsLogShaped (fileWriterLine i))
    ∧ (∀ i, IsLogShaped (mainWriterLine i))
    ∧ (∀ d, IsLogShaped (consumerLine d)) := by
  refine ⟨fun tid v => ⟨"From " ++ tid, v, rfl⟩,
    fun tid v => ⟨"From " ++ tid, v, rfl⟩,
    fun i => ⟨"From thread", i, rfl⟩,
    fun i => ⟨"From main", i, rfl⟩,
    fun d => ⟨"Consumer received data", d, rfl⟩⟩

/-- C8 (counterexample): `factorial` does not equal the mathematical
factorial for every `n ≥ 0`: at `n = 13` the 32-bit product wraps, giving
1932053504 instead of 13! = 6227020800. -/
theorem C8_factorial_counterexample :
    (0 : Int) ≤ 13
    ∧ factorial 13 ≠ (Nat.factorial 13 : Int)
    ∧ factorial 13 = 1932053504 := by
  refine ⟨by decide, by decide, by decide⟩

/-- C8 (amended): `factorial n` equals the mathematical factorial `n!`
for every `0 ≤ n ≤ 12` — every `n` whose factorial fits a 32-bit `int` —
and returns 1 for every `n ≤ 1`, including zero and negative inputs. -/
theorem C8_factorial_amended :
    (∀ n : Nat, n ≤ 12 → factorial (n : Int) = (Nat.factorial n : Int))
    ∧ (∀ n : Int, n ≤ 1 → factorial n = 1) := by
  constructor
  · intro n hn
    interval_cases n <;> decide
  · intro n hn
    unfold factorial
    rw [Int.toNat_of_nonpos (by omega)]
    rfl

/-- C8 (witness): the amended statement at `n = 12` and `n = -7`. -/
theorem C8_factorial_witness :
    factorial ((12 : Nat) : Int) = (Nat.factorial 12 : Int)
    ∧ factorial (-7) = 1 :=
  ⟨C8_factorial_amended.1 12 (by decide), C8_factorial_amended.2 (-7) (by decide)⟩

/-- C9: `FileWriter::operator()` writes the 100 values 0 down to −99 in
that order, and `Task::operator()` / `LoggerTask::operator()` write the
100 values −1 down to −100 in that order; each loop writes exactly 100
lines. -/
theorem C9_worker_loop_counts :
    fileWriterValues = (List.range 100).map (fun k => -(k : Int))
    ∧ fileWriterValues.length = 100
    ∧ taskValues = (List.range 100).map (fun k => -(k : Int) - 1)
    ∧ taskValues.length = 100 := by
  refine ⟨by decide, by decide, by decide, by decide⟩

/-- C10: Example 3's try-block loop always reaches `i == 50` — it writes
the 51 lines for `i = 0..50`, the last being `"From main: 50"` — and then
raises the simulated exception, so `main` never completes normally; on
that failure path the catch block joins the worker thread `t1` before the
exception propagates out of `main`. -/
theorem C10_exception_join :
    ex3Try.2 = some "Simulated exception"
    ∧ ex3Try.1.length = 51
    ∧ ex3Try.1.getLast? = some (mainWriterLine 50)
    ∧ ex3Main = (true, some "Simulated exception") := by
  refine ⟨by decide, by decide, by decide, by decide⟩
